import Mathlib

/-!
Verification development for `subiquity/ui/views/snaplist.py`: the snap-list
installer screen.  The Python source is shallowly embedded: pure computations
become Lean functions on `Nat`/`Int`/`String`, the UI callback protocol becomes
explicit state passing, and code that can raise becomes `Except`.
-/

set_option autoImplicit false

namespace Snaplist

/-- `subiquity.models.snaplist.SnapSelection`: the chosen channel plus the
classic-confinement flag stored in `SnapListView.to_install`. -/
structure SnapSelection where
  channel : String
  is_classic : Bool
deriving DecidableEq, Repr

/-- One entry of `snap.channels` (fields read by `SnapInfoView.__init__`).
`released_at` is modelled as seconds since an arbitrary epoch. -/
structure ChannelInfo where
  channel_name : String
  version : String
  revision : String
  size : Nat
  released_at : Nat
  confinement : String
deriving DecidableEq, Repr

/-- A snap record as consumed by the view code. -/
structure Snap where
  name : String
  summary : String
  description : String
  publisher : String
  verified : Bool
  confinement : String
  channels : List ChannelInfo
deriving DecidableEq, Repr

/-!
## The layout split of `SnapInfoView.render` (snaplist.py lines 223-234)

The Python computes, for `rows_available`, `rows_wanted_description` and
`rows_wanted_channels` (all non-negative row counts):

- if `rows_wanted_channels + rows_wanted_description <= rows_available`, each
  panel gets its wanted size;
- else if `rows_wanted_description < 2*rows_available/3` (exact float division;
  for row-count magnitudes the comparison agrees with the exact rational one,
  i.e. with `3*wanted < 2*available`), the description gets its want and the
  channel list the rest;
- else `channel_rows = max(min(rows_wanted_channels, int(rows_available/3)), 3)`
  (`int` of a non-negative float is the floor, i.e. `Nat` division) and the
  description gets the rest, which can be negative; hence the `Int` result.
-/

/-- The three-way split from `SnapInfoView.render`; the result pair is
(description rows, channel rows). -/
def split (rows_available rows_wanted_description rows_wanted_channels : Nat) :
    Int × Int :=
  if rows_wanted_channels + rows_wanted_description ≤ rows_available then
    ((rows_wanted_description : Int), (rows_wanted_channels : Int))
  else if 3 * rows_wanted_description < 2 * rows_available then
    ((rows_wanted_description : Int),
      (rows_available : Int) - rows_wanted_description)
  else
    let channel_rows := max (min rows_wanted_channels (rows_available / 3)) 3
    ((rows_available : Int) - channel_rows, (channel_rows : Int))

/-!
## `format_datetime` (snaplist.py lines 76-100)

`d` is in the past, so `delta = now - d` is a non-negative timedelta; we embed
it as whole seconds (`delta_seconds`).  The Python attribute `delta.days`
equals `delta_seconds / 86400` for non-negative deltas, and `int(x)` of a
non-negative float is the floor.  The final Python format string renders the
amount right-aligned in a field of width 2, so single-digit amounts carry a
leading space.  The `else` branch returns `str(d.date())`, which we abstract
as the supplied `date_str`.
-/

/-- The Python format of a natural number with field width 2: right-aligned,
space-padded. -/
def two_width (n : Nat) : String :=
  if n < 10 then " " ++ toString n else toString n

/-- Embedding of `format_datetime` for a past timestamp whose distance from
`now` is `delta_seconds` whole seconds; `date_str` stands for `str(d.date())`. -/
def format_datetime (delta_seconds : Nat) (date_str : String) : String :=
  if delta_seconds < 60 then
    "just now"
  else if delta_seconds < 60 * 60 then
    let amount := delta_seconds / 60
    let unit := if amount = 1 then "minute" else "minutes"
    two_width amount ++ " " ++ unit ++ " ago"
  else if delta_seconds < 60 * 60 * 24 then
    let amount := delta_seconds / (60 * 60)
    let unit := if amount = 1 then "hour" else "hours"
    two_width amount ++ " " ++ unit ++ " ago"
  else if delta_seconds / (60 * 60 * 24) < 30 then
    let amount := delta_seconds / (60 * 60 * 24)
    let unit := if amount = 1 then "day" else "days"
    two_width amount ++ " " ++ unit ++ " ago"
  else
    date_str

/-!
## The seed manifest and the preinstalled filter
(`SnapListView.get_seed_yaml`, `get_preinstalled_snaps`, `make_main_screen`)
-/

/-- Outcome of opening the local seed file: its text, or FileNotFoundError. -/
inductive SeedFile where
  | found (content : String)
  | missing
deriving DecidableEq, Repr

/-- The literal seed document returned on the dry-run path. -/
def dry_run_seed_yaml : String :=
  "snaps:\n  -\n    name: core\n    channel: stable\n    file: core_4486.snap\n  -\n    name: lxd\n    channel: stable/ubuntu-18.04\n    file: lxd_59.snap\n"

/-- `SnapListView.get_seed_yaml`.  On the non-dry-run path the code opens the
seed file; FileNotFoundError is caught by a handler that only logs, after
which control falls through to the statement entering the still-unbound file
variable, so UnboundLocalError escapes.  A raised exception is modelled as
`Except.error` carrying the Python exception name. -/
def get_seed_yaml (dry_run : Bool) (file : SeedFile) : Except String String :=
  if dry_run then
    Except.ok dry_run_seed_yaml
  else
    match file with
    | SeedFile.found content => Except.ok content
    | SeedFile.missing => Except.error ("UnboundLocalError")

/-- One mapping of the snaps list of a parsed seed document; the Python
`snap.get` of the name key yields none when the key is absent, and an empty
string is falsy in the membership test that follows. -/
structure SeedSnapEntry where
  name : Option String
deriving DecidableEq, Repr

/-- A parsed seed document: `seed.get` of the snaps key, default empty. -/
structure SeedDoc where
  snaps : List SeedSnapEntry
deriving DecidableEq, Repr

/-- Result of `yaml.load`: a document, or a `yaml.YAMLError`. -/
inductive ParseResult where
  | ok (doc : SeedDoc)
  | yamlError
deriving DecidableEq, Repr

/-- The collection loop of `get_preinstalled_snaps`: every truthy name. -/
def seed_names (doc : SeedDoc) : List String :=
  doc.snaps.foldr
    (fun entry acc =>
      match entry.name with
      | some n => if n = "" then acc else n :: acc
      | none => acc)
    []

/-- `SnapListView.get_preinstalled_snaps`, with `yaml.load` supplied as the
external parse collaborator.  Only `yaml.YAMLError` is caught (yielding the
empty set); any exception raised by `get_seed_yaml` propagates. -/
def get_preinstalled_snaps (dry_run : Bool) (file : SeedFile)
    (parse : String → ParseResult) : Except String (List String) :=
  match get_seed_yaml dry_run file with
  | Except.error e => Except.error e
  | Except.ok content =>
    match parse content with
    | ParseResult.yamlError => Except.ok []
    | ParseResult.ok doc => Except.ok (seed_names doc)

/-- The row-building loop of `SnapListView.make_main_screen`: keep, in order,
the snaps whose names are not preinstalled. -/
def main_screen_rows (snap_list : List Snap) (preinstalled : List String) :
    List Snap :=
  snap_list.filter (fun snap => decide (snap.name ∉ preinstalled))

/-- `make_main_screen` composed with `get_preinstalled_snaps` (the row table
is built only if that call returns; its exception propagates). -/
def make_main_screen (dry_run : Bool) (file : SeedFile)
    (parse : String → ParseResult) (snap_list : List Snap) :
    Except String (List Snap) :=
  match get_preinstalled_snaps dry_run file parse with
  | Except.error e => Except.error e
  | Except.ok preinstalled =>
      Except.ok (main_screen_rows snap_list preinstalled)

/-!
## Selection store and checkbox state
(`SnapCheckBox.state_change`, `SnapInfoView.state_change`)

`to_install` is the selection store of `SnapListView` and `box_checked` the
states of the row checkboxes (`snap_boxes`).  The urwid method `set_state`
updates the widget state and fires the connected `on_state_change` handler
when the state actually changes.
-/

/-- The store and checkbox state of the screen. -/
structure UIState where
  to_install : String → Option SnapSelection
  box_checked : String → Bool

/-- The screen starts with an empty store and unchecked boxes. -/
def initial_ui : UIState :=
  { to_install := fun _ => none, box_checked := fun _ => false }

/-- `SnapCheckBox.state_change`: checking stores the default stable-channel
selection; unchecking pops the entry (absent key is a no-op). -/
def checkbox_state_change (snap : Snap) (new_state : Bool) (s : UIState) :
    UIState :=
  if new_state then
    { s with to_install := fun n =>
        if n = snap.name then
          some { channel := "stable"
                 is_classic := snap.confinement == "classic" }
        else s.to_install n }
  else
    { s with to_install := fun n =>
        if n = snap.name then none else s.to_install n }

/-- urwid `CheckBox.set_state` on the row checkbox of `snap`: update the
widget state and fire `SnapCheckBox.state_change` when it changed. -/
def checkbox_set_state (snap : Snap) (new_state : Bool) (s : UIState) :
    UIState :=
  if s.box_checked snap.name = new_state then s
  else
    checkbox_state_change snap new_state
      { s with box_checked := fun n =>
          if n = snap.name then new_state else s.box_checked n }

/-- The selection a channel row carries (the user data of the radio button
built in `SnapInfoView.__init__`). -/
def selection_of (csi : ChannelInfo) : SnapSelection :=
  { channel := csi.channel_name, is_classic := csi.confinement == "classic" }

/-- `SnapInfoView.state_change`: on a radio button becoming chosen, check the
row checkbox (which itself may store the default selection) and then store
the chosen selection. -/
def radio_state_change (snap : Snap) (state : Bool) (selection : SnapSelection)
    (s : UIState) : UIState :=
  if state then
    let s1 := checkbox_set_state snap true s
    { s1 with to_install := fun n =>
        if n = snap.name then some selection else s1.to_install n }
  else s

/-- The UI events that mutate the selection store. -/
inductive UIEvent where
  | toggle_box (snap : Snap)
  | choose_channel (snap : Snap) (csi : ChannelInfo)

/-- One UI event: a space press toggles the row checkbox; choosing a channel
radio button fires `SnapInfoView.state_change` with the chosen state. -/
def ui_step (e : UIEvent) (s : UIState) : UIState :=
  match e with
  | UIEvent.toggle_box snap =>
      checkbox_set_state snap (! s.box_checked snap.name) s
  | UIEvent.choose_channel snap csi =>
      radio_state_change snap true (selection_of csi) s

/-- Run a list of UI events from the initial screen state. -/
def ui_run (events : List UIEvent) : UIState :=
  events.foldl (fun s e => ui_step e s) initial_ui

/-- The store has an entry for a name exactly when that box is checked. -/
def StoreInv (s : UIState) : Prop :=
  ∀ n, (s.to_install n).isSome = s.box_checked n

/-!
## The fetch protocol
(`SnapListView.load`, `SnapCheckBox.load_info`, `FetchingInfo`,
`FetchingFailed`)

`get_snap_list` and `get_snap_info` take a callback that the controller may
invoke before the call returns (synchronous completion) or later on the event
loop.  Each flow is embedded as explicit state carrying an event trace.
-/

/-- Observable events of the list-loading flow. -/
inductive LoadEvent where
  | spinner_start
  | spinner_stop
  | show_retry
  | show_main
deriving DecidableEq, Repr

/-- State of `SnapListView.load`: the closure flag, the local spinner and the
emitted events. -/
structure LoadState where
  called : Bool
  spinner_exists : Bool
  spinner_running : Bool
  events : List LoadEvent
deriving DecidableEq, Repr

/-- The callback closed over by `SnapListView.load`: record the completion,
stop the spinner if one was created, then show the retry screen on an empty
list and the main screen otherwise. -/
def load_callback (snap_list : List Snap) (s : LoadState) : LoadState :=
  let s1 := { s with called := true }
  let s2 :=
    if s1.spinner_exists then
      { s1 with
        spinner_running := false
        events := s1.events ++ [LoadEvent.spinner_stop] }
    else s1
  if snap_list.length = 0 then
    { s2 with events := s2.events ++ [LoadEvent.show_retry] }
  else
    { s2 with events := s2.events ++ [LoadEvent.show_main] }

/-- `SnapListView.load`: request the list, then start and show a spinner only
if the callback has not already run (`sync` tells whether the controller
invokes the callback before returning). -/
def load (snap_list : List Snap) (sync : Bool) : LoadState :=
  let s0 : LoadState := { called := false
                          spinner_exists := false
                          spinner_running := false
                          events := [] }
  let s1 := if sync then load_callback snap_list s0 else s0
  if s1.called then s1
  else
    { s1 with
      spinner_exists := true
      spinner_running := true
      events := s1.events ++ [LoadEvent.spinner_start] }

/-- Later arrival of the asynchronous completion of `load`. -/
def load_async_complete (snap_list : List Snap) : LoadState :=
  load_callback snap_list (load snap_list false)

/-- Which dialog currently overlays the screen. -/
inductive OverlayKind where
  | fetching_info
  | fetching_failed
deriving DecidableEq, Repr

/-- Observable events of the info-loading flow. -/
inductive InfoEvent where
  | spinner_start
  | spinner_stop
  | overlay_shown
  | overlay_removed
  | failed_shown
  | detail_shown
deriving DecidableEq, Repr

/-- The `FetchingInfo` dialog object: its spinner runs until `close`. -/
structure FetchingInfoDialog where
  closed : Bool
deriving DecidableEq, Repr

/-- The `FetchingFailed` dialog object. -/
structure FetchingFailedDialog where
  closed : Bool
deriving DecidableEq, Repr

/-- State of `SnapCheckBox.load_info` and its dialogs. -/
structure InfoState where
  called : Bool
  fi : Option FetchingInfoDialog
  ff : Option FetchingFailedDialog
  overlay : Option OverlayKind
  screen_is_detail : Bool
  detail_channel : Option String
  events : List InfoEvent
deriving DecidableEq, Repr

/-- `FetchingInfo.close`: unless already closed, mark closed, stop the
spinner and remove the overlay. -/
def fetching_info_close (s : InfoState) : InfoState :=
  match s.fi with
  | none => s
  | some d =>
    if d.closed then s
    else
      { s with
        fi := some { closed := true }
        overlay := none
        events := s.events
          ++ [InfoEvent.spinner_stop, InfoEvent.overlay_removed] }

/-- `FetchingFailed.close`: unless already closed, mark closed and remove the
overlay. -/
def fetching_failed_close (s : InfoState) : InfoState :=
  match s.ff with
  | none => s
  | some d =>
    if d.closed then s
    else
      { s with
        ff := some { closed := true }
        overlay := none
        events := s.events ++ [InfoEvent.overlay_removed] }

/-- The callback closed over by `SnapCheckBox.load_info`: close a pending
fetching dialog, then either show the failure dialog (empty channel list) or
replace the screen with the detail view, whose current channel comes from the
selection store entry. -/
def load_info_callback (snap : Snap) (entry : Option SnapSelection)
    (s : InfoState) : InfoState :=
  let s1 := { s with called := true }
  let s2 := if s1.fi.isSome then fetching_info_close s1 else s1
  if snap.channels.length = 0 then
    { s2 with
      ff := some { closed := false }
      overlay := some OverlayKind.fetching_failed
      events := s2.events ++ [InfoEvent.failed_shown] }
  else
    { s2 with
      screen_is_detail := true
      detail_channel := entry.map (fun sel => sel.channel)
      events := s2.events ++ [InfoEvent.detail_shown] }

/-- `SnapCheckBox.load_info`: request the info, then construct and show the
fetching dialog (its constructor starts the spinner) only if the callback has
not already run. -/
def load_info (snap : Snap) (entry : Option SnapSelection) (sync : Bool) :
    InfoState :=
  let s0 : InfoState := { called := false
                          fi := none
                          ff := none
                          overlay := none
                          screen_is_detail := false
                          detail_channel := none
                          events := [] }
  let s1 := if sync then load_info_callback snap entry s0 else s0
  if s1.called then s1
  else
    { s1 with
      fi := some { closed := false }
      overlay := some OverlayKind.fetching_info
      events := s1.events
        ++ [InfoEvent.spinner_start, InfoEvent.overlay_shown] }

/-- Later arrival of the asynchronous completion of `load_info`. -/
def load_info_async_complete (snap : Snap) (entry : Option SnapSelection) :
    InfoState :=
  load_info_callback snap entry (load_info snap entry false)

/-- The completed info fetch, for either completion style. -/
def load_info_done (snap : Snap) (entry : Option SnapSelection) (sync : Bool) :
    InfoState :=
  if sync then load_info snap entry true
  else load_info_async_complete snap entry

/-- A minimal snap record with the given name, for concrete instances. -/
def named_snap (name : String) : Snap :=
  { name := name
    summary := ""
    description := ""
    publisher := ""
    verified := false
    confinement := "strict"
    channels := [] }

/-- A concrete channel record, for concrete instances. -/
def beta_channel : ChannelInfo :=
  { channel_name := "beta"
    version := "1.0"
    revision := "7"
    size := 1000
    released_at := 0
    confinement := "strict" }

/-- A concrete snap having one channel, for concrete instances. -/
def one_channel_snap : Snap :=
  { name := "spark"
    summary := ""
    description := ""
    publisher := ""
    verified := false
    confinement := "strict"
    channels := [beta_channel] }

/-- A concrete info-flow state with both dialogs open, for concrete
instances. -/
def open_dialogs_state : InfoState :=
  { called := false
    fi := some { closed := false }
    ff := some { closed := false }
    overlay := some OverlayKind.fetching_info
    screen_is_detail := false
    detail_channel := none
    events := [] }

/-!
## Claims C1, C2, C3: the split algorithm and the humanized time format
-/

/-- C1: for every availableRows, wantedA (description) and wantedB (channels),
`split` follows the three-case algorithm: wants that fit are granted as is;
else a description wanting less than two thirds of the space gets its want and
the channel list the rest; else the channel list gets
max(min(wantedB, availableRows / 3), 3) and the description the rest.  The
three worked examples of the specification hold. -/
theorem split_three_case_algorithm (a wA wB : Nat) :
    (wA + wB ≤ a → split a wA wB = ((wA : Int), (wB : Int)))
    ∧ (a < wA + wB → (wA : ℚ) < 2 / 3 * a →
        split a wA wB = ((wA : Int), (a : Int) - wA))
    ∧ (a < wA + wB → ¬ ((wA : ℚ) < 2 / 3 * a) →
        split a wA wB =
          ((a : Int) - (max (min wB (a / 3)) 3 : Nat),
            ((max (min wB (a / 3)) 3 : Nat) : Int)))
    ∧ split 20 5 3 = (5, 3) ∧ split 10 3 20 = (3, 7)
    ∧ split 10 9 20 = (7, 3) := by
  have key : ((wA : ℚ) < 2 / 3 * a) ↔ 3 * wA < 2 * a := by
    rw [div_mul_eq_mul_div, lt_div_iff₀ (by norm_num : (0 : ℚ) < 3)]
    have h2 : ((wA : ℚ) * 3 < 2 * a) ↔ (((wA * 3 : Nat) : ℚ) < ((2 * a : Nat) : ℚ)) := by
      push_cast
      constructor <;> intro h <;> linarith
    rw [h2, Nat.cast_lt]
    omega
  refine ⟨?_, ?_, ?_, by decide, by decide, by decide⟩
  · intro h
    simp only [split]
    rw [if_pos (by omega : wB + wA ≤ a)]
  · intro h1 h2
    have h3 : 3 * wA < 2 * a := key.mp h2
    simp only [split]
    rw [if_neg (by omega : ¬ wB + wA ≤ a), if_pos h3]
  · intro h1 h2
    have h3 : ¬ 3 * wA < 2 * a := fun hc => h2 (key.mpr hc)
    simp only [split]
    rw [if_neg (by omega : ¬ wB + wA ≤ a), if_neg h3]

/-- Witness for C1 at availableRows = 10, wantedA = 3, wantedB = 20. -/
theorem split_three_case_algorithm_witness :
    (10 < 3 + 20 ∧ (3 : ℚ) < 2 / 3 * 10) ∧ split 10 3 20 = (3, 7) := by
  refine ⟨⟨by norm_num, by norm_num⟩, ?_⟩
  have h := (split_three_case_algorithm 10 3 20).2.1 (by norm_num) (by norm_num)
  simpa using h

/-- C2 as stated is false on the code, on three counts: when the wants fit
strictly under the budget the panels get their wants, which do not sum to
availableRows; for availableRows = 3 (not below 3) the middle branch yields
channel rows 2 < 3; and for availableRows = 0 the description rows go
negative (the source never clamps). -/
theorem split_budget_claim_counterexample :
    (5 + 3 ≤ 20 ∧ (split 20 5 3).1 + (split 20 5 3).2 ≠ (20 : Int))
    ∧ (3 < 1 + 3 ∧ ¬ ((3 : Nat) < 3) ∧ (split 3 1 3).2 < 3)
    ∧ (0 < 0 + 1 ∧ (split 0 0 1).1 < 0) := by decide

/-- Amended C2: when the wants fit, each panel gets its want, so the rows sum
to wantedA + wantedB (at most availableRows); otherwise the rows sum to
exactly availableRows, the description rows are non-negative whenever
availableRows is at least 3, and the channel rows are at least 3 whenever
availableRows is at least 6. -/
theorem split_row_budget (a wA wB : Nat) :
    (wA + wB ≤ a →
        (split a wA wB).1 + (split a wA wB).2 = (wA : Int) + wB)
    ∧ (a < wA + wB →
        (split a wA wB).1 + (split a wA wB).2 = (a : Int)
        ∧ (3 ≤ a → 0 ≤ (split a wA wB).1)
        ∧ (6 ≤ a → 3 ≤ (split a wA wB).2)) := by
  constructor
  · intro h
    simp only [split]
    rw [if_pos (by omega : wB + wA ≤ a)]
  · intro h
    simp only [split]
    rw [if_neg (by omega : ¬ wB + wA ≤ a)]
    split_ifs with hdesc
    · exact ⟨by push_cast; ring, fun h3 => by positivity, fun h6 => by omega⟩
    · refine ⟨by push_cast; ring, fun h3 => ?_, fun h6 => ?_⟩
      · simp only []
        omega
      · simp only []
        omega

/-- Witness for the amended C2 at the inputs (10, 9, 20) for the overflow
case and (20, 5, 3) for the fitting case. -/
theorem split_row_budget_witness :
    ((10 < 9 + 20)
      ∧ (split 10 9 20).1 + (split 10 9 20).2 = (10 : Int)
      ∧ 0 ≤ (split 10 9 20).1 ∧ 3 ≤ (split 10 9 20).2)
    ∧ (5 + 3 ≤ 20
      ∧ (split 20 5 3).1 + (split 20 5 3).2 = (5 : Int) + 3) := by
  have h := (split_row_budget 10 9 20).2 (by norm_num)
  have h2 := (split_row_budget 20 5 3).1 (by norm_num)
  exact ⟨⟨by norm_num, h.1, h.2.1 (by norm_num), h.2.2 (by norm_num)⟩,
    ⟨by norm_num, h2⟩⟩

/-- C3 as stated is false on the code: the amount is rendered right-aligned
in a field of width 2, so a delta of 60 seconds yields a string with a
leading space, not the claimed one. -/
theorem format_datetime_claim_counterexample :
    format_datetime 60 "2018-06-01" ≠ "1 minute ago"
    ∧ format_datetime 60 "2018-06-01" = " 1 minute ago" := by decide

/-- Amended C3: the thresholds and unit words are as claimed (just now below
60 s, minutes below one hour, hours below one day, days below 30 days, the
literal date from 30 days on, singular exactly at amount 1), but the amount
is space-padded to width 2, so the boundary examples read with a leading
space. -/
theorem format_datetime_cases (ds : Nat) (date_str : String) :
    (ds < 60 → format_datetime ds date_str = "just now")
    ∧ (60 ≤ ds → ds < 3600 →
        format_datetime ds date_str =
          two_width (ds / 60) ++ " "
            ++ (if ds / 60 = 1 then "minute" else "minutes") ++ " ago")
    ∧ (3600 ≤ ds → ds < 86400 →
        format_datetime ds date_str =
          two_width (ds / 3600) ++ " "
            ++ (if ds / 3600 = 1 then "hour" else "hours") ++ " ago")
    ∧ (86400 ≤ ds → ds / 86400 < 30 →
        format_datetime ds date_str =
          two_width (ds / 86400) ++ " "
            ++ (if ds / 86400 = 1 then "day" else "days") ++ " ago")
    ∧ (30 ≤ ds / 86400 → format_datetime ds date_str = date_str)
    ∧ format_datetime 59 date_str = "just now"
    ∧ format_datetime 60 date_str = " 1 minute ago"
    ∧ format_datetime 3660 date_str = " 1 hour ago"
    ∧ format_datetime 90000 date_str = " 1 day ago"
    ∧ format_datetime 2678400 date_str = date_str := by
  refine ⟨?_, ?_, ?_, ?_, ?_, rfl, rfl, rfl, rfl, rfl⟩
  · intro h
    simp only [format_datetime]
    rw [if_pos h]
  · intro h1 h2
    simp only [format_datetime]
    rw [if_neg (by omega), if_pos (by omega : ds < 60 * 60)]
  · intro h1 h2
    simp only [format_datetime]
    rw [if_neg (by omega), if_neg (by omega : ¬ ds < 60 * 60),
      if_pos (by omega : ds < 60 * 60 * 24)]
  · intro h1 h2
    simp only [format_datetime]
    rw [if_neg (by omega), if_neg (by omega : ¬ ds < 60 * 60),
      if_neg (by omega : ¬ ds < 60 * 60 * 24),
      if_pos (by omega : ds / (60 * 60 * 24) < 30)]
  · intro h
    simp only [format_datetime]
    rw [if_neg (by omega), if_neg (by omega : ¬ ds < 60 * 60),
      if_neg (by omega : ¬ ds < 60 * 60 * 24),
      if_neg (by omega : ¬ ds / (60 * 60 * 24) < 30)]

/-- Witness for the amended C3 at delta 600 seconds. -/
theorem format_datetime_cases_witness :
    (60 ≤ 600 ∧ 600 < 3600)
    ∧ format_datetime 600 "2018-06-01" =
        two_width (600 / 60) ++ " "
          ++ (if 600 / 60 = 1 then "minute" else "minutes") ++ " ago" := by
  exact ⟨⟨by norm_num, by norm_num⟩,
    (format_datetime_cases 600 "2018-06-01").2.1 (by norm_num) (by norm_num)⟩

/-!
## Claims C4, C7: the seed manifest and the preinstalled filter
-/

/-- C4 names the intended behavior, but the code raises: with the seed file
missing on the non-dry-run path, the FileNotFoundError handler only logs,
the following use of the unbound file variable raises UnboundLocalError, and
`get_preinstalled_snaps` catches only `yaml.YAMLError`, so no empty set is
returned and the error escapes. -/
theorem seed_missing_raises (parse : String → ParseResult) :
    get_seed_yaml false SeedFile.missing = Except.error ("UnboundLocalError")
    ∧ get_preinstalled_snaps false SeedFile.missing parse
        = Except.error ("UnboundLocalError") := by
  exact ⟨rfl, rfl⟩

/-- C7: the main screen shows exactly the fetched snaps whose names are not
in the preinstalled set; names A, B, C against seed set B leave rows A, C;
and a seed parse failure yields the empty preinstalled set, so no snap is
excluded. -/
theorem preinstalled_filtering (snap_list : List Snap)
    (preinstalled : List String) (snap : Snap) (content : String)
    (dry_run : Bool) :
    (snap ∈ main_screen_rows snap_list preinstalled
      ↔ snap ∈ snap_list ∧ snap.name ∉ preinstalled)
    ∧ main_screen_rows
        [named_snap ("A"), named_snap ("B"), named_snap ("C")] ["B"]
      = [named_snap ("A"), named_snap ("C")]
    ∧ make_main_screen false (SeedFile.found ("seedtext"))
        (fun _ => ParseResult.ok { snaps := [{ name := some ("B") }] })
        [named_snap ("A"), named_snap ("B"), named_snap ("C")]
      = Except.ok [named_snap ("A"), named_snap ("C")]
    ∧ make_main_screen dry_run (SeedFile.found content)
        (fun _ => ParseResult.yamlError) snap_list
      = Except.ok snap_list := by
  refine ⟨?_, by decide, by rfl, ?_⟩
  · simp [main_screen_rows, List.mem_filter]
  · cases dry_run <;>
      simp [make_main_screen, get_preinstalled_snaps, get_seed_yaml,
        main_screen_rows, List.filter_eq_self]

/-!
## Claims C6, C10: the selection store and the checkboxes
-/

lemma checkbox_set_state_box (snap : Snap) (b : Bool) (s : UIState) :
    (checkbox_set_state snap b s).box_checked snap.name = b := by
  unfold checkbox_set_state checkbox_state_change
  split_ifs with h1 h2 <;> simp_all

lemma store_inv_set_state (snap : Snap) (b : Bool) (s : UIState)
    (h : StoreInv s) : StoreInv (checkbox_set_state snap b s) := by
  intro n
  unfold checkbox_set_state checkbox_state_change
  split_ifs with h1 h2
  · exact h n
  · by_cases hn : n = snap.name <;> simp_all [h n]
  · by_cases hn : n = snap.name <;> simp_all [h n]

lemma store_inv_ui_step (e : UIEvent) (s : UIState) (h : StoreInv s) :
    StoreInv (ui_step e s) := by
  cases e with
  | toggle_box snap => exact store_inv_set_state _ _ _ h
  | choose_channel snap csi =>
      intro n
      have h1 := store_inv_set_state snap true s h
      by_cases hn : n = snap.name
      · subst hn
        simp [ui_step, radio_state_change, checkbox_set_state_box]
      · simpa [ui_step, radio_state_change, hn] using h1 n

lemma store_inv_foldl (events : List UIEvent) (s : UIState)
    (h : StoreInv s) :
    StoreInv (events.foldl (fun s e => ui_step e s) s) := by
  induction events generalizing s with
  | nil => exact h
  | cons e es ih => exact ih _ (store_inv_ui_step e s h)

lemma store_inv_run (events : List UIEvent) : StoreInv (ui_run events) :=
  store_inv_foldl events initial_ui (fun _ => rfl)

/-- C6: after any sequence of UI events, the store has an entry for a name
exactly when that row checkbox is checked; and a choose-channel event stores
the chosen selection and checks the row checkbox. -/
theorem store_matches_checkboxes :
    (∀ (events : List UIEvent) (n : String),
      ((ui_run events).to_install n).isSome = (ui_run events).box_checked n)
    ∧ (∀ (events : List UIEvent) (snap : Snap) (csi : ChannelInfo),
        (ui_step (UIEvent.choose_channel snap csi)
            (ui_run events)).to_install snap.name = some (selection_of csi)
        ∧ (ui_step (UIEvent.choose_channel snap csi)
            (ui_run events)).box_checked snap.name = true) := by
  refine ⟨fun events n => store_inv_run events n,
    fun events snap csi => ⟨?_, ?_⟩⟩
  · simp [ui_step, radio_state_change]
  · simp [ui_step, radio_state_change, checkbox_set_state_box]

/-- C10: for a snap with an unchecked row checkbox, choosing a channel first
stores the default stable selection through the checkbox state-change side
effect, then overwrites it with the chosen selection, so after the event the
store holds the chosen channel. -/
theorem choose_channel_overwrites_default (snap : Snap) (csi : ChannelInfo)
    (s : UIState) (h : s.box_checked snap.name = false) :
    (checkbox_set_state snap true s).to_install snap.name
        = some { channel := "stable"
                 is_classic := snap.confinement == "classic" }
    ∧ (ui_step (UIEvent.choose_channel snap csi) s).to_install snap.name
        = some (selection_of csi) := by
  constructor
  · unfold checkbox_set_state checkbox_state_change
    rw [if_neg (by simp [h])]
    simp
  · simp [ui_step, radio_state_change]

/-- Witness for C10 at a concrete snap, channel and the initial state. -/
theorem choose_channel_overwrites_default_witness :
    initial_ui.box_checked (one_channel_snap).name = false
    ∧ ((checkbox_set_state one_channel_snap true initial_ui).to_install
          (one_channel_snap).name
        = some { channel := "stable"
                 is_classic := (one_channel_snap).confinement == "classic" }
      ∧ (ui_step (UIEvent.choose_channel one_channel_snap beta_channel)
            initial_ui).to_install (one_channel_snap).name
        = some (selection_of beta_channel)) :=
  ⟨rfl,
    choose_channel_overwrites_default one_channel_snap beta_channel
      initial_ui rfl⟩

/-!
## Claims C5, C8, C9: the fetch protocol and the dialogs
-/

/-- C5: for both fetch operations, synchronous completion (the callback runs
before the fetch call returns) never emits a spinner start; with asynchronous
completion the spinner (and for the info fetch, the fetching dialog) is up
from the end of the call and is stopped by the callback. -/
theorem fetch_spinner_protocol (snap_list : List Snap) (snap : Snap)
    (entry : Option SnapSelection) :
    LoadEvent.spinner_start ∉ (load snap_list true).events
    ∧ InfoEvent.spinner_start ∉ (load_info snap entry true).events
    ∧ (load snap_list false).spinner_running = true
    ∧ (load snap_list false).events = [LoadEvent.spinner_start]
    ∧ (load_async_complete snap_list).spinner_running = false
    ∧ (load_async_complete snap_list).events.take 2
        = [LoadEvent.spinner_start, LoadEvent.spinner_stop]
    ∧ (load_info snap entry false).fi = some { closed := false }
    ∧ (load_info snap entry false).overlay = some OverlayKind.fetching_info
    ∧ (load_info snap entry false).events
        = [InfoEvent.spinner_start, InfoEvent.overlay_shown]
    ∧ (load_info_async_complete snap entry).fi = some { closed := true }
    ∧ InfoEvent.spinner_stop ∈ (load_info_async_complete snap entry).events := by
  refine ⟨?_, ?_, rfl, rfl, ?_, ?_, rfl, rfl, rfl, ?_, ?_⟩
  · cases snap_list with
    | nil => simp [load, load_callback]
    | cons a as => simp [load, load_callback]
  · cases hc : snap.channels with
    | nil => simp [load_info, load_info_callback, fetching_info_close, hc]
    | cons a as => simp [load_info, load_info_callback, fetching_info_close, hc]
  · cases snap_list with
    | nil => simp [load_async_complete, load, load_callback]
    | cons a as => simp [load_async_complete, load, load_callback]
  · cases snap_list with
    | nil => simp [load_async_complete, load, load_callback]
    | cons a as => simp [load_async_complete, load, load_callback]
  · cases hc : snap.channels with
    | nil =>
        simp [load_info_async_complete, load_info, load_info_callback,
          fetching_info_close, hc]
    | cons a as =>
        simp [load_info_async_complete, load_info, load_info_callback,
          fetching_info_close, hc]
  · cases hc : snap.channels with
    | nil =>
        simp [load_info_async_complete, load_info, load_info_callback,
          fetching_info_close, hc]
    | cons a as =>
        simp [load_info_async_complete, load_info, load_info_callback,
          fetching_info_close, hc]

/-- C8: on completion of a per-snap info fetch, an empty channel list shows
the retryable failure dialog over the current screen and does not navigate;
a non-empty channel list replaces the visible screen with the detail view. -/
theorem info_fetch_completion (snap : Snap) (entry : Option SnapSelection)
    (sync : Bool) :
    (snap.channels = [] →
        (load_info_done snap entry sync).overlay
            = some OverlayKind.fetching_failed
        ∧ (load_info_done snap entry sync).screen_is_detail = false)
    ∧ (snap.channels ≠ [] →
        (load_info_done snap entry sync).screen_is_detail = true
        ∧ (load_info_done snap entry sync).overlay = none) := by
  constructor
  · intro h
    cases sync <;>
      simp [load_info_done, load_info_async_complete, load_info,
        load_info_callback, fetching_info_close, h]
  · intro h
    cases sync <;>
      simp [load_info_done, load_info_async_complete, load_info,
        load_info_callback, fetching_info_close, List.length_eq_zero, h]

/-- Witness for C8: a snap without channels fails over the current screen; a
snap with one channel navigates to the detail view. -/
theorem info_fetch_completion_witness :
    ((named_snap ("emptychannels")).channels = []
      ∧ (load_info_done (named_snap ("emptychannels")) none true).overlay
          = some OverlayKind.fetching_failed
      ∧ (load_info_done (named_snap ("emptychannels")) none
            true).screen_is_detail = false)
    ∧ (one_channel_snap.channels ≠ []
      ∧ (load_info_done one_channel_snap none false).screen_is_detail = true
      ∧ (load_info_done one_channel_snap none false).overlay = none) := by
  have h1 :=
    (info_fetch_completion (named_snap ("emptychannels")) none true).1 rfl
  have h2 :=
    (info_fetch_completion one_channel_snap none false).2 (by decide)
  exact ⟨⟨rfl, h1.1, h1.2⟩, ⟨by decide, h2.1, h2.2⟩⟩

/-- C9: closing the fetching-info dialog or the fetching-failed dialog is
idempotent; the first close of an open dialog stops the spinner (for the
fetching-info dialog) and removes the overlay exactly once, and any further
close is a no-op. -/
theorem dialog_close_idempotent (s : InfoState) :
    fetching_info_close (fetching_info_close s) = fetching_info_close s
    ∧ fetching_failed_close (fetching_failed_close s) = fetching_failed_close s
    ∧ (s.fi = some { closed := false } →
        (fetching_info_close s).events.count InfoEvent.spinner_stop
            = s.events.count InfoEvent.spinner_stop + 1
        ∧ (fetching_info_close s).events.count InfoEvent.overlay_removed
            = s.events.count InfoEvent.overlay_removed + 1
        ∧ (fetching_info_close s).fi = some { closed := true })
    ∧ (s.ff = some { closed := false } →
        (fetching_failed_close s).events.count InfoEvent.overlay_removed
            = s.events.count InfoEvent.overlay_removed + 1
        ∧ (fetching_failed_close s).ff = some { closed := true }) := by
  refine ⟨?_, ?_, ?_, ?_⟩
  · cases hfi : s.fi with
    | none => simp [fetching_info_close, hfi]
    | some d =>
        by_cases hc : d.closed <;>
          simp [fetching_info_close, hfi, hc]
  · cases hff : s.ff with
    | none => simp [fetching_failed_close, hff]
    | some d =>
        by_cases hc : d.closed <;>
          simp [fetching_failed_close, hff, hc]
  · intro h
    simp [fetching_info_close, h, List.count_append]
  · intro h
    simp [fetching_failed_close, h, List.count_append]

/-- Witness for C9 at a state with both dialogs open. -/
theorem dialog_close_idempotent_witness :
    (open_dialogs_state.fi = some { closed := false }
      ∧ (fetching_info_close open_dialogs_state).events.count
            InfoEvent.spinner_stop
          = open_dialogs_state.events.count InfoEvent.spinner_stop + 1
      ∧ (fetching_info_close open_dialogs_state).events.count
            InfoEvent.overlay_removed
          = open_dialogs_state.events.count InfoEvent.overlay_removed + 1
      ∧ (fetching_info_close open_dialogs_state).fi = some { closed := true })
    ∧ (open_dialogs_state.ff = some { closed := false }
      ∧ (fetching_failed_close open_dialogs_state).events.count
            InfoEvent.overlay_removed
          = open_dialogs_state.events.count InfoEvent.overlay_removed + 1
      ∧ (fetching_failed_close open_dialogs_state).ff
          = some { closed := true }) := by
  have h := dialog_close_idempotent open_dialogs_state
  have h3 := h.2.2.1 rfl
  have h4 := h.2.2.2 rfl
  exact ⟨⟨rfl, h3.1, h3.2.1, h3.2.2⟩, ⟨rfl, h4.1, h4.2⟩⟩

end Snaplist
